import Mathlib

/-!
Shallow embedding of the `Environment` class of `environment.py` (the core of
the trailer_env repository) and proofs of the specification claims about it.

Modelling conventions:
* Numbers are exact rationals.  The real-valued primitives that the source
  obtains from numpy (`np.sin`, `np.cos`, the square root inside
  `np.linalg.norm`, and `np.pi`) are abstracted into an `Ops` record of
  rational functions, because no claim under verification depends on their
  values, only on how the code combines them.
* The module-level configuration `params` (imported by `environment.py` but
  not part of the sources) is a `Params` record passed explicitly.
* Randomness (`np.random.rand(2)`) is an explicit stream `r : ℕ → ℚ × ℚ` of
  the successive 2-vector draws, consumed in program order.
* The unbounded `while True:` rejection loop of the constructor is modelled
  with explicit fuel: a `none` result means the loop has not produced a value
  within `fuel` iterations.  The source loop has no bound of its own.
-/

namespace TrailerEnv

/-- Abstract real-valued primitives used by `environment.py` via numpy:
`sin`, `cos`, the square root used by `np.linalg.norm`, and `np.pi`.
They are parameters of the model; no verified claim depends on their values. -/
structure Ops where
  sin : ℚ → ℚ
  cos : ℚ → ℚ
  sqrt : ℚ → ℚ
  pi : ℚ

/-- The module-level configuration constants of the `params` module that
`environment.py` imports: sizes, obstacle count and the three reward
constants returned by `make_action`. -/
structure Params where
  screen_size : ℚ × ℚ
  car_size : ℚ × ℚ
  obstacle_size : ℚ × ℚ
  goal_size : ℚ × ℚ
  num_obstacles : ℕ
  reward_collision : ℚ
  reward_goal : ℚ
  reward_timestep : ℚ

/-- The mutable state of the `Environment` class: the instance attributes
set in `Environment.__init__` and read or written by `make_action`
(the pygame rendering surfaces are out of scope). -/
structure Environment where
  car_position : ℚ × ℚ
  goal_position : ℚ × ℚ
  obstacle_positions : List (ℚ × ℚ)
  car_dim : ℚ
  goal_dim : ℚ
  obs_dim : ℚ
  car_rotation : ℚ
  car_speed : ℚ
  deriving DecidableEq

/-- Componentwise difference of 2-vectors, as numpy broadcasts `a - b`. -/
def vsub (a b : ℚ × ℚ) : ℚ × ℚ := (a.1 - b.1, a.2 - b.2)

/-- Componentwise product of 2-vectors, as in `np.random.rand(2) * params.screen_size`. -/
def vscale (a b : ℚ × ℚ) : ℚ × ℚ := (a.1 * b.1, a.2 * b.2)

/-- The numpy 2-norm `np.linalg.norm(v)`: square root of the sum of squares,
with the square root taken from `Ops`. -/
def linalgNorm (O : Ops) (v : ℚ × ℚ) : ℚ := O.sqrt (v.1 * v.1 + v.2 * v.2)

/-- The numpy `np.clip(x, lo, hi)` saturation: `lo` below the range, `hi`
above it, `x` inside it. -/
def clip (x lo hi : ℚ) : ℚ := min (max x lo) hi

/-- The acceptance test of the constructor rejection loop, lines 40-43 of
`environment.py`: a candidate obstacle position must be strictly farther
than `min_dist` from both the car and the goal starting positions. -/
def obstacleOk (O : Ops) (car goal : ℚ × ℚ) (min_dist : ℚ) (c : ℚ × ℚ) : Bool :=
  decide (linalgNorm O (vsub c car) > min_dist) &&
    decide (linalgNorm O (vsub c goal) > min_dist)

/-- One run of the inner `while True:` loop (lines 37-45): keep drawing
`np.random.rand(2) * params.screen_size` until `ok` accepts the candidate.
Returns the accepted position and the next unread stream index, or `none`
when `fuel` draws were all rejected (the source loop is unbounded). -/
def placeOne (ok : ℚ × ℚ → Bool) (r : ℕ → ℚ × ℚ) (screen : ℚ × ℚ) :
    (start fuel : ℕ) → Option ((ℚ × ℚ) × ℕ)
  | _, 0 => none
  | start, fuel + 1 =>
    let c := vscale (r start) screen
    if ok c then some (c, start + 1) else placeOne ok r screen (start + 1) fuel

/-- The outer `for i in range(params.num_obstacles)` loop (lines 36-45),
appending each accepted obstacle position in order. -/
def placeAll (ok : ℚ × ℚ → Bool) (r : ℕ → ℚ × ℚ) (screen : ℚ × ℚ) :
    (start fuel n : ℕ) → Option (List (ℚ × ℚ))
  | _, _, 0 => some []
  | start, fuel, n + 1 =>
    match placeOne ok r screen start fuel with
    | none => none
    | some (c, start2) =>
      match placeAll ok r screen start2 fuel n with
      | none => none
      | some rest => some (c :: rest)

/-- The constructor `Environment.__init__(self, screen_size, car_size,
num_obstacles)`, lines 9-49.  The three declared arguments are kept in the
model with their source names; the body, like the source, reads every
quantity from the `params` module instead (the only use of an argument in
the source is `pygame.Surface(screen_size)` for the render surface, which is
out of scope).  `r 0` is the car position draw, `r 1` the goal position
draw, and `r 2, r 3, ...` feed the obstacle rejection loop. -/
def Environment.init (screen_size car_size : ℚ × ℚ) (num_obstacles : ℕ)
    (O : Ops) (p : Params) (r : ℕ → ℚ × ℚ) (fuel : ℕ) : Option Environment :=
  let car_position := vscale (r 0) p.screen_size
  let goal_position := vscale (r 1) p.screen_size
  let car_dim := linalgNorm O p.car_size
  let goal_dim := linalgNorm O p.goal_size
  let obs_dim := linalgNorm O p.obstacle_size
  let min_dist := 2 * (car_dim + obs_dim + goal_dim)
  match placeAll (obstacleOk O car_position goal_position min_dist) r
      p.screen_size 2 fuel p.num_obstacles with
  | none => none
  | some obs =>
    some ⟨car_position, goal_position, obs, car_dim, goal_dim, obs_dim, 0, 0⟩

/-- The state mutation performed by `make_action` before any terminal check,
lines 51-80: clip the inputs, integrate the speed and clip it to `[-1, 10]`,
move the car by the heading direction, clamp each coordinate to the arena
(zeroing the speed when a clamp fires), and finally update the heading with
the current (possibly zeroed) speed. -/
def pose_update (O : Ops) (p : Params) (e : Environment)
    (acceleration steering_angle dT : ℚ) : Environment :=
  let acc := clip acceleration (-1) 1
  let steer := clip steering_angle (-1) 1
  let speed := clip (e.car_speed + acc * dT) (-1) 10
  let new_x := e.car_position.1 - O.sin (e.car_rotation / 180 * O.pi) * speed * dT
  let new_y := e.car_position.2 - O.cos (e.car_rotation / 180 * O.pi) * speed * dT
  let xc : ℚ × ℚ :=
    if new_x > p.screen_size.1 then (0, p.screen_size.1)
    else if new_x < 0 then (0, 0)
    else (speed, new_x)
  let yc : ℚ × ℚ :=
    if new_y > p.screen_size.2 then (0, p.screen_size.2)
    else if new_y < 0 then (0, 0)
    else (xc.1, new_y)
  ⟨(xc.2, yc.2), e.goal_position, e.obstacle_positions, e.car_dim, e.goal_dim,
    e.obs_dim, e.car_rotation - yc.1 * steer * dT, yc.1⟩

/-- The collision condition of lines 82-86: some obstacle is strictly closer
to the car than `0.5 * (car_dim + obs_dim)`. -/
def hitsObstacle (O : Ops) (e : Environment) : Prop :=
  ∃ o ∈ e.obstacle_positions,
    linalgNorm O (vsub o e.car_position) < 1 / 2 * (e.car_dim + e.obs_dim)

/-- The goal condition of lines 88-90: the goal is strictly closer to the
car than `0.5 * (car_dim + goal_dim)`. -/
def hitsGoal (O : Ops) (e : Environment) : Prop :=
  linalgNorm O (vsub e.goal_position e.car_position) < 1 / 2 * (e.car_dim + e.goal_dim)

/-- The method `make_action(self, acceleration, steering_angle, dT)`, lines
51-92: mutate the pose, then scan the obstacles in order and return the
collision reward on a hit, then test the goal, and otherwise return the
timestep reward.  The result is the new state together with the returned
`(reward, done)` pair. -/
def make_action (O : Ops) (p : Params) (e : Environment)
    (acceleration steering_angle dT : ℚ) : Environment × ℚ × Bool :=
  let e1 := pose_update O p e acceleration steering_angle dT
  if e1.obstacle_positions.any fun o =>
      decide (linalgNorm O (vsub o e1.car_position) < 1 / 2 * (e1.car_dim + e1.obs_dim))
  then (e1, p.reward_collision, true)
  else if linalgNorm O (vsub e1.goal_position e1.car_position) <
      1 / 2 * (e1.car_dim + e1.goal_dim)
  then (e1, p.reward_goal, true)
  else (e1, p.reward_timestep, false)

/-! Concrete instances used by the executable witnesses. -/

/-- Ops instance whose transcendental primitives are all zero. -/
def opsA : Ops := ⟨fun _ => 0, fun _ => 0, fun _ => 0, 3⟩

/-- Ops instance with unit sine and cosine, used to drive the car into a wall. -/
def opsC : Ops := ⟨fun _ => 1, fun _ => 1, fun _ => 0, 3⟩

/-- Ops instance whose square root is the identity, used for constructor runs. -/
def opsB : Ops := ⟨fun _ => 0, fun _ => 0, fun x => x, 3⟩

/-- Configuration with a single obstacle; with `opsA` every extent is zero. -/
def pA : Params := ⟨(100, 100), (1, 1), (1, 1), (1, 1), 1, -10, 10, -1⟩

/-- Configuration with five obstacles and degenerate sprite sizes. -/
def pB : Params := ⟨(100, 100), (0, 0), (0, 0), (0, 0), 5, -10, 10, -1⟩

/-- State with the car, the goal and one obstacle all at the same point. -/
def eA : Environment := ⟨(50, 50), (50, 50), [(50, 50)], 2, 2, 2, 0, 0⟩

/-- State heading nowhere in particular, away from every wall. -/
def eC : Environment := ⟨(50, 50), (0, 0), [], 2, 2, 2, 7, 0⟩

/-- State one unit away from the left wall. -/
def eD : Environment := ⟨(1, 5), (0, 0), [], 0, 0, 0, 0, 0⟩

/-- Random stream: car and goal draws are the origin, obstacle draws the corner. -/
def rB : ℕ → ℚ × ℚ := fun i => if i < 2 then (0, 0) else (1, 1)

/-- The construction run used by the C6 witness: five obstacles at the far
corner, the car and goal at the origin, every extent zero. -/
def envB : Environment :=
  ⟨(0, 0), (0, 0), [(100, 100), (100, 100), (100, 100), (100, 100), (100, 100)],
    0, 0, 0, 0, 0⟩

/-! ### Helper lemmas -/

lemma clip_le_right (x lo hi : ℚ) : clip x lo hi ≤ hi := min_le_right _ _

lemma left_le_clip (x lo hi : ℚ) (h : lo ≤ hi) : lo ≤ clip x lo hi :=
  le_min (le_max_right _ _) h

lemma clip_idem (x lo hi : ℚ) (h : lo ≤ hi) : clip (clip x lo hi) lo hi = clip x lo hi := by
  unfold clip
  rcases le_total x lo with h1 | h1 <;> rcases le_total x hi with h2 | h2 <;>
    simp [max_def, min_def] <;> split_ifs <;> linarith

/-- The state component of the `make_action` result is the pose mutation,
whichever branch produced the return value. -/
lemma make_action_fst (O : Ops) (p : Params) (e : Environment) (a s dT : ℚ) :
    (make_action O p e a s dT).1 = pose_update O p e a s dT := by
  simp only [make_action]
  split
  · rfl
  · split <;> rfl

/-- The boolean obstacle scan of `make_action` decides `hitsObstacle`. -/
lemma anyObstacle_iff (O : Ops) (e : Environment) :
    ((e.obstacle_positions.any fun o =>
        decide (linalgNorm O (vsub o e.car_position) < 1 / 2 * (e.car_dim + e.obs_dim)))
      = true) ↔ hitsObstacle O e := by
  simp [hitsObstacle]

/-- The return value of `make_action` on the collision branch. -/
lemma make_action_snd_collision (O : Ops) (p : Params) (e : Environment) (a s dT : ℚ)
    (h : hitsObstacle O (pose_update O p e a s dT)) :
    (make_action O p e a s dT).2 = (p.reward_collision, true) := by
  simp only [make_action]
  rw [if_pos ((anyObstacle_iff O _).mpr h)]

/-- The return value of `make_action` on the goal branch. -/
lemma make_action_snd_goal (O : Ops) (p : Params) (e : Environment) (a s dT : ℚ)
    (h1 : ¬ hitsObstacle O (pose_update O p e a s dT))
    (h2 : hitsGoal O (pose_update O p e a s dT)) :
    (make_action O p e a s dT).2 = (p.reward_goal, true) := by
  simp only [make_action]
  simp only [hitsGoal] at h2
  rw [if_neg fun hb => h1 ((anyObstacle_iff O _).mp hb), if_pos h2]

/-- The return value of `make_action` on the timestep branch. -/
lemma make_action_snd_timestep (O : Ops) (p : Params) (e : Environment) (a s dT : ℚ)
    (h1 : ¬ hitsObstacle O (pose_update O p e a s dT))
    (h2 : ¬ hitsGoal O (pose_update O p e a s dT)) :
    (make_action O p e a s dT).2 = (p.reward_timestep, false) := by
  simp only [make_action]
  simp only [hitsGoal] at h2
  rw [if_neg fun hb => h1 ((anyObstacle_iff O _).mp hb), if_neg h2]

/-! ### Claims -/

/-- C3: `make_action` never rejects numeric inputs; it saturates.  For every
state and inputs of any magnitude, the call is indistinguishable from the
call on the inputs clipped to `[-1, 1]`; in particular an acceleration of 2
acts exactly like an acceleration of 1. -/
theorem C3_input_saturation (O : Ops) (p : Params) (e : Environment) (a s dT : ℚ) :
    make_action O p e a s dT =
      make_action O p e (clip a (-1) 1) (clip s (-1) 1) dT ∧
    make_action O p e 2 s dT = make_action O p e 1 s dT := by
  have hc : ∀ x : ℚ, clip (clip x (-1) 1) (-1) 1 = clip x (-1) 1 := fun x =>
    clip_idem x (-1) 1 (by norm_num)
  have key : ∀ a' s' : ℚ, make_action O p e a' s' dT =
      make_action O p e (clip a' (-1) 1) (clip s' (-1) 1) dT := by
    intro a' s'
    have hstep : pose_update O p e a' s' dT =
        pose_update O p e (clip a' (-1) 1) (clip s' (-1) 1) dT := by
      simp only [pose_update, hc]
    simp only [make_action, hstep]
  refine ⟨key a s, ?_⟩
  have h2 : clip (2 : ℚ) (-1) 1 = 1 := by norm_num [clip]
  have h1 : clip (1 : ℚ) (-1) 1 = 1 := by norm_num [clip]
  calc make_action O p e 2 s dT
      = make_action O p e (clip 2 (-1) 1) (clip s (-1) 1) dT := key 2 s
    _ = make_action O p e (clip 1 (-1) 1) (clip s (-1) 1) dT := by rw [h2, h1]
    _ = make_action O p e 1 s dT := (key 1 s).symm

/-- C4: the speed stored in the state immediately after any single
`make_action` call lies within `[-1, 10]`, for every starting state
(also with out-of-range speed) and acceleration of any magnitude. -/
theorem C4_speed_invariant (O : Ops) (p : Params) (e : Environment) (a s dT : ℚ) :
    -1 ≤ (make_action O p e a s dT).1.car_speed ∧
      (make_action O p e a s dT).1.car_speed ≤ 10 := by
  rw [make_action_fst]
  simp only [pose_update]
  split_ifs <;>
    constructor <;>
    first
      | exact left_le_clip _ _ _ (by norm_num)
      | exact clip_le_right _ _ _
      | norm_num

/-- C9: `make_action` leaves the obstacle positions, the goal position and
the three extents untouched; the pose mutation happens before the terminal
checks, so the state component of the result is the pose mutation whatever
the branch, and a subsequent call simply continues evolving from it. -/
theorem C9_frame_condition (O : Ops) (p : Params) (e : Environment)
    (a s dT a2 s2 dT2 : ℚ) :
    (make_action O p e a s dT).1 = pose_update O p e a s dT ∧
    (make_action O p e a s dT).1.obstacle_positions = e.obstacle_positions ∧
    (make_action O p e a s dT).1.goal_position = e.goal_position ∧
    (make_action O p e a s dT).1.car_dim = e.car_dim ∧
    (make_action O p e a s dT).1.goal_dim = e.goal_dim ∧
    (make_action O p e a s dT).1.obs_dim = e.obs_dim ∧
    (make_action O p (make_action O p e a s dT).1 a2 s2 dT2).1 =
      pose_update O p (pose_update O p e a s dT) a2 s2 dT2 := by
  rw [make_action_fst, make_action_fst]
  exact ⟨rfl, rfl, rfl, rfl, rfl, rfl, rfl⟩

/-- C2: every `make_action` call returns exactly one of the three reward
constants with the matching done flag; done is true iff the collision or the
goal branch was taken; and the obstacle checks come first, so an obstacle
within collision distance forces the collision reward even when the goal is
also within range on the same step. -/
theorem C2_reward_branches (O : Ops) (p : Params) (e : Environment) (a s dT : ℚ) :
    ((make_action O p e a s dT).2.1 = p.reward_collision ∧
        (make_action O p e a s dT).2.2 = true ∨
      (make_action O p e a s dT).2.1 = p.reward_goal ∧
        (make_action O p e a s dT).2.2 = true ∨
      (make_action O p e a s dT).2.1 = p.reward_timestep ∧
        (make_action O p e a s dT).2.2 = false) ∧
    ((make_action O p e a s dT).2.2 = true ↔
      hitsObstacle O (pose_update O p e a s dT) ∨
        hitsGoal O (pose_update O p e a s dT)) ∧
    (hitsObstacle O (pose_update O p e a s dT) →
      (make_action O p e a s dT).2.1 = p.reward_collision ∧
        (make_action O p e a s dT).2.2 = true) := by
  by_cases h1 : hitsObstacle O (pose_update O p e a s dT)
  · have h := make_action_snd_collision O p e a s dT h1
    rw [Prod.ext_iff] at h
    exact ⟨Or.inl ⟨h.1, h.2⟩, ⟨fun _ => Or.inl h1, fun _ => h.2⟩, fun _ => ⟨h.1, h.2⟩⟩
  · by_cases h2 : hitsGoal O (pose_update O p e a s dT)
    · have h := make_action_snd_goal O p e a s dT h1 h2
      rw [Prod.ext_iff] at h
      exact ⟨Or.inr (Or.inl ⟨h.1, h.2⟩), ⟨fun _ => Or.inr h2, fun _ => h.2⟩,
        fun hh => absurd hh h1⟩
    · have h := make_action_snd_timestep O p e a s dT h1 h2
      rw [Prod.ext_iff] at h
      refine ⟨Or.inr (Or.inr ⟨h.1, h.2⟩), ⟨fun ht => ?_, fun ht => ?_⟩,
        fun hh => absurd hh h1⟩
      · rw [h.2] at ht
        exact Bool.noConfusion ht
      · rcases ht with hh | hh
        · exact absurd hh h1
        · exact absurd hh h2

/-- C2 witness: with the car, the goal and one obstacle all at `(50, 50)`,
both terminal conditions hold after the step, and the call returns the
collision reward, not the goal reward. -/
theorem C2_reward_branches_witness :
    hitsObstacle opsA (pose_update opsA pA eA 0 0 1) ∧
    (make_action opsA pA eA 0 0 1).2.1 = pA.reward_collision ∧
    (make_action opsA pA eA 0 0 1).2.2 = true := by
  have hhit : hitsObstacle opsA (pose_update opsA pA eA 0 0 1) := by
    refine ⟨(50, 50), ?_, ?_⟩
    · norm_num [pose_update, clip, opsA, pA, eA]
    · norm_num [pose_update, clip, linalgNorm, vsub, opsA, pA, eA]
  exact ⟨hhit, (C2_reward_branches opsA pA eA 0 0 1).2.2 hhit⟩

/-- C5: when no boundary clamp fires, the position moves by exactly
`(-sin(heading in radians) * speed * dt, -cos(heading in radians) * speed * dt)`
with the updated clipped speed, and the heading then decreases by
`speed * steering_angle * dt` with the clipped steering input. -/
theorem C5_kinematics (O : Ops) (p : Params) (e : Environment) (a s dT : ℚ)
    (hx : 0 ≤ e.car_position.1 -
        O.sin (e.car_rotation / 180 * O.pi) * clip (e.car_speed + clip a (-1) 1 * dT) (-1) 10 * dT ∧
      e.car_position.1 -
        O.sin (e.car_rotation / 180 * O.pi) * clip (e.car_speed + clip a (-1) 1 * dT) (-1) 10 * dT ≤
        p.screen_size.1)
    (hy : 0 ≤ e.car_position.2 -
        O.cos (e.car_rotation / 180 * O.pi) * clip (e.car_speed + clip a (-1) 1 * dT) (-1) 10 * dT ∧
      e.car_position.2 -
        O.cos (e.car_rotation / 180 * O.pi) * clip (e.car_speed + clip a (-1) 1 * dT) (-1) 10 * dT ≤
        p.screen_size.2) :
    (make_action O p e a s dT).1.car_position =
      (e.car_position.1 -
         O.sin (e.car_rotation / 180 * O.pi) * clip (e.car_speed + clip a (-1) 1 * dT) (-1) 10 * dT,
       e.car_position.2 -
         O.cos (e.car_rotation / 180 * O.pi) * clip (e.car_speed + clip a (-1) 1 * dT) (-1) 10 * dT) ∧
    (make_action O p e a s dT).1.car_rotation =
      e.car_rotation - clip (e.car_speed + clip a (-1) 1 * dT) (-1) 10 * clip s (-1) 1 * dT ∧
    (make_action O p e a s dT).1.car_speed = clip (e.car_speed + clip a (-1) 1 * dT) (-1) 10 := by
  rw [make_action_fst]
  simp only [pose_update]
  rw [if_neg (not_lt.mpr hx.2), if_neg (not_lt.mpr hx.1),
    if_neg (not_lt.mpr hy.2), if_neg (not_lt.mpr hy.1)]
  exact ⟨rfl, rfl, rfl⟩

/-- C5 witness: with unit sine and cosine, heading 7 and speed 0, a step with
acceleration 1, steering 1 and dt 1 moves the car from `(50, 50)` to
`(49, 49)`, sets the speed to 1 and turns the heading from 7 to 6. -/
theorem C5_kinematics_witness :
    (make_action opsC pA eC 1 1 1).1.car_position = (49, 49) ∧
    (make_action opsC pA eC 1 1 1).1.car_rotation = 6 ∧
    (make_action opsC pA eC 1 1 1).1.car_speed = 1 := by
  have h := C5_kinematics opsC pA eC 1 1 1
    (by constructor <;> norm_num [opsC, pA, eC, clip])
    (by constructor <;> norm_num [opsC, pA, eC, clip])
  refine ⟨?_, ?_, ?_⟩
  · rw [h.1]
    norm_num [opsC, pA, eC, clip]
  · rw [h.2.1]
    norm_num [opsC, pA, eC, clip]
  · rw [h.2.2]
    norm_num [opsC, pA, eC, clip]

/-- C7: the implementation clamps at the arena boundary: a coordinate that
would leave the rectangle is set to the violated bound and the speed is
zeroed; consequently, from any state inside the arena the position stays in
`[0, width] x [0, height]` after any call. -/
theorem C7_boundary_clamping (O : Ops) (p : Params) (e : Environment) (a s dT : ℚ)
    (hx : 0 ≤ e.car_position.1 ∧ e.car_position.1 ≤ p.screen_size.1)
    (hy : 0 ≤ e.car_position.2 ∧ e.car_position.2 ≤ p.screen_size.2) :
    (e.car_position.1 -
        O.sin (e.car_rotation / 180 * O.pi) * clip (e.car_speed + clip a (-1) 1 * dT) (-1) 10 * dT >
        p.screen_size.1 →
      (make_action O p e a s dT).1.car_position.1 = p.screen_size.1 ∧
        (make_action O p e a s dT).1.car_speed = 0) ∧
    (e.car_position.1 -
        O.sin (e.car_rotation / 180 * O.pi) * clip (e.car_speed + clip a (-1) 1 * dT) (-1) 10 * dT <
        0 →
      (make_action O p e a s dT).1.car_position.1 = 0 ∧
        (make_action O p e a s dT).1.car_speed = 0) ∧
    (e.car_position.2 -
        O.cos (e.car_rotation / 180 * O.pi) * clip (e.car_speed + clip a (-1) 1 * dT) (-1) 10 * dT >
        p.screen_size.2 →
      (make_action O p e a s dT).1.car_position.2 = p.screen_size.2 ∧
        (make_action O p e a s dT).1.car_speed = 0) ∧
    (e.car_position.2 -
        O.cos (e.car_rotation / 180 * O.pi) * clip (e.car_speed + clip a (-1) 1 * dT) (-1) 10 * dT <
        0 →
      (make_action O p e a s dT).1.car_position.2 = 0 ∧
        (make_action O p e a s dT).1.car_speed = 0) ∧
    0 ≤ (make_action O p e a s dT).1.car_position.1 ∧
    (make_action O p e a s dT).1.car_position.1 ≤ p.screen_size.1 ∧
    0 ≤ (make_action O p e a s dT).1.car_position.2 ∧
    (make_action O p e a s dT).1.car_position.2 ≤ p.screen_size.2 := by
  rw [make_action_fst]
  simp only [pose_update]
  split_ifs <;>
    refine ⟨fun h => ⟨?_, ?_⟩, fun h => ⟨?_, ?_⟩, fun h => ⟨?_, ?_⟩, fun h => ⟨?_, ?_⟩,
      ?_, ?_, ?_, ?_⟩ <;>
    (try dsimp only) <;>
    first
      | rfl
      | linarith [hx.1, hx.2, hy.1, hy.2]

/-- C7 witness: from `(1, 5)` with unit sine, acceleration 1, steering 1 and
dt 2, the tentative x coordinate is `-3`; it is clamped to 0, the speed is
zeroed, and the resulting position `(0, 1)` is inside the arena. -/
theorem C7_boundary_clamping_witness :
    (make_action opsC pA eD 1 1 2).1.car_position.1 = 0 ∧
    (make_action opsC pA eD 1 1 2).1.car_speed = 0 ∧
    0 ≤ (make_action opsC pA eD 1 1 2).1.car_position.1 ∧
    (make_action opsC pA eD 1 1 2).1.car_position.1 ≤ pA.screen_size.1 := by
  have h := C7_boundary_clamping opsC pA eD 1 1 2
    (by constructor <;> norm_num [pA, eD])
    (by constructor <;> norm_num [pA, eD])
  have hfire : eD.car_position.1 -
      opsC.sin (eD.car_rotation / 180 * opsC.pi) *
        clip (eD.car_speed + clip 1 (-1) 1 * 2) (-1) 10 * 2 < 0 := by
    norm_num [opsC, eD, clip]
  exact ⟨(h.2.1 hfire).1, (h.2.1 hfire).2, h.2.2.2.2.1, h.2.2.2.2.2.1⟩

/-- C10: whenever a boundary clamp fires during a `make_action` call, the
speed is zeroed before the heading update, so the heading is left unchanged
by that call regardless of the steering input. -/
theorem C10_wall_contact_heading (O : Ops) (p : Params) (e : Environment) (a s dT : ℚ)
    (h : e.car_position.1 -
        O.sin (e.car_rotation / 180 * O.pi) * clip (e.car_speed + clip a (-1) 1 * dT) (-1) 10 * dT >
        p.screen_size.1 ∨
      e.car_position.1 -
        O.sin (e.car_rotation / 180 * O.pi) * clip (e.car_speed + clip a (-1) 1 * dT) (-1) 10 * dT <
        0 ∨
      e.car_position.2 -
        O.cos (e.car_rotation / 180 * O.pi) * clip (e.car_speed + clip a (-1) 1 * dT) (-1) 10 * dT >
        p.screen_size.2 ∨
      e.car_position.2 -
        O.cos (e.car_rotation / 180 * O.pi) * clip (e.car_speed + clip a (-1) 1 * dT) (-1) 10 * dT <
        0) :
    (make_action O p e a s dT).1.car_rotation = e.car_rotation := by
  rw [make_action_fst]
  simp only [pose_update]
  split_ifs <;>
    (try dsimp only) <;>
    first
      | ring1
      | (rcases h with h' | h' | h' | h' <;> linarith)

/-- C10 witness: the step of the C7 scenario clamps against the left wall and
leaves the heading at its old value 0 despite the steering input 1. -/
theorem C10_wall_contact_heading_witness :
    (make_action opsC pA eD 1 1 2).1.car_rotation = 0 := by
  have h := C10_wall_contact_heading opsC pA eD 1 1 2
    (Or.inr (Or.inl (by norm_num [opsC, eD, pA, clip])))
  rw [h]
  norm_num [eD]

/-- A position returned by the inner rejection loop passed its acceptance
test. -/
lemma placeOne_ok_of_eq (ok : ℚ × ℚ → Bool) (r : ℕ → ℚ × ℚ) (screen : ℚ × ℚ) :
    ∀ start fuel c s2, placeOne ok r screen start fuel = some (c, s2) → ok c = true := by
  intro start fuel
  induction fuel generalizing start with
  | zero =>
    intro c s2 h
    exact Option.noConfusion h
  | succ n ih =>
    intro c s2 h
    simp only [placeOne] at h
    by_cases hc : ok (vscale (r start) screen) = true
    · rw [if_pos hc] at h
      injection h with h
      cases h
      exact hc
    · rw [if_neg hc] at h
      exact ih (start + 1) c s2 h

/-- Every position in a completed rejection-loop run passed its acceptance
test. -/
lemma placeAll_ok (ok : ℚ × ℚ → Bool) (r : ℕ → ℚ × ℚ) (screen : ℚ × ℚ) :
    ∀ n start fuel l, placeAll ok r screen start fuel n = some l →
      ∀ c ∈ l, ok c = true := by
  intro n
  induction n with
  | zero =>
    intro start fuel l h
    simp only [placeAll] at h
    injection h with h
    subst h
    intro c hc
    exact absurd hc (List.not_mem_nil c)
  | succ n ih =>
    intro start fuel l h
    simp only [placeAll] at h
    split at h
    · exact Option.noConfusion h
    · rename_i c0 s2 heq1
      split at h
      · exact Option.noConfusion h
      · rename_i rest heq2
        injection h with h
        subst h
        intro c hc
        rcases List.mem_cons.mp hc with rfl | hmem
        · exact placeOne_ok_of_eq ok r screen _ _ _ _ heq1
        · exact ih s2 fuel rest heq2 c hmem

/-- C6: every obstacle position of a completed construction is strictly
farther than `2 * (car_dim + obs_dim + goal_dim)` from both the car and the
goal starting positions. -/
theorem C6_obstacle_clearance (ss cs : ℚ × ℚ) (n : ℕ) (O : Ops) (p : Params)
    (r : ℕ → ℚ × ℚ) (fuel : ℕ) (e : Environment)
    (h : Environment.init ss cs n O p r fuel = some e) :
    ∀ o ∈ e.obstacle_positions,
      linalgNorm O (vsub o e.car_position) >
        2 * (e.car_dim + e.obs_dim + e.goal_dim) ∧
      linalgNorm O (vsub o e.goal_position) >
        2 * (e.car_dim + e.obs_dim + e.goal_dim) := by
  simp only [Environment.init] at h
  split at h
  · exact Option.noConfusion h
  · rename_i obs heq
    injection h with h
    subst h
    intro o ho
    have hok := placeAll_ok _ _ _ _ _ _ _ heq o ho
    simp only [obstacleOk, Bool.and_eq_true, decide_eq_true_eq] at hok
    exact ⟨hok.1, hok.2⟩

/-- C6 witness: a concrete completed construction, with the clearance
property read off for its first obstacle. -/
theorem C6_obstacle_clearance_witness :
    linalgNorm opsB (vsub (100, 100) envB.car_position) >
      2 * (envB.car_dim + envB.obs_dim + envB.goal_dim) ∧
    linalgNorm opsB (vsub (100, 100) envB.goal_position) >
      2 * (envB.car_dim + envB.obs_dim + envB.goal_dim) := by
  have hinit : Environment.init (10, 10) (1, 1) 3 opsB pB rB 1 = some envB := by
    norm_num [Environment.init, placeAll, placeOne, obstacleOk, linalgNorm, vsub, vscale,
      opsB, pB, rB, envB]
  exact C6_obstacle_clearance (10, 10) (1, 1) 3 opsB pB rB 1 envB hinit (100, 100)
    (by simp [envB])

/-- C1: contrary to the claim, the constructor does not use its
caller-supplied configuration.  Its result is independent of the
`screen_size`, `car_size` and `num_obstacles` arguments, and a concrete run
that requests 3 obstacles produces `params.num_obstacles = 5` of them,
sampled over `params.screen_size`. -/
theorem C1_constructor_ignores_arguments :
    (∀ (ss1 cs1 : ℚ × ℚ) (n1 : ℕ) (ss2 cs2 : ℚ × ℚ) (n2 : ℕ) (O : Ops) (p : Params)
        (r : ℕ → ℚ × ℚ) (fuel : ℕ),
      Environment.init ss1 cs1 n1 O p r fuel = Environment.init ss2 cs2 n2 O p r fuel) ∧
    (Environment.init (10, 10) (1, 1) 3 opsB pB rB 1).map
        (fun e => e.obstacle_positions.length) = some 5 := by
  constructor
  · intro ss1 cs1 n1 ss2 cs2 n2 O p r fuel
    rfl
  · norm_num [Environment.init, placeAll, placeOne, obstacleOk, linalgNorm, vsub, vscale,
      opsB, pB, rB]

/-- If the acceptance test rejects every candidate, the inner rejection loop
never returns, whatever the fuel bound. -/
lemma placeOne_none_of_never (ok : ℚ × ℚ → Bool) (r : ℕ → ℚ × ℚ) (screen : ℚ × ℚ)
    (hok : ∀ c, ok c = false) :
    ∀ start fuel, placeOne ok r screen start fuel = none := by
  intro start fuel
  induction fuel generalizing start with
  | zero => rfl
  | succ n ih =>
    have hc := hok (vscale (r start) screen)
    simp only [placeOne, hc]
    simpa using ih (start + 1)

/-- If the acceptance test rejects every candidate and at least one obstacle
is requested, the whole placement loop never completes. -/
lemma placeAll_none_of_never (ok : ℚ × ℚ → Bool) (r : ℕ → ℚ × ℚ) (screen : ℚ × ℚ)
    (hok : ∀ c, ok c = false) (start fuel n : ℕ) (hn : n ≠ 0) :
    placeAll ok r screen start fuel n = none := by
  cases n with
  | zero => exact absurd rfl hn
  | succ m => simp [placeAll, placeOne_none_of_never ok r screen hok start fuel]

/-- With `opsA` every extent and every distance is zero, so no candidate is
ever strictly farther than the clearance threshold: construction never
completes, for any fuel bound. -/
lemma init_unsat_none (fuel : ℕ) :
    Environment.init (640, 480) (36, 18) 1 opsA pA rB fuel = none := by
  simp only [Environment.init]
  rw [placeAll_none_of_never]
  · intro c
    norm_num [obstacleOk, linalgNorm, opsA]
  · norm_num [pA]

/-- C8 counterexample: the claim that the rejection loop caps its retries
and fails explicitly is false: on a configuration whose clearance
constraint rejects every sample, no fuel bound whatsoever makes
construction produce a result — the `while True:` loop simply never
exits, and no "cannot place obstacles" error path exists in the code. -/
theorem C8_no_retry_cap_counterexample :
    ¬ ∃ fuel : ℕ,
      (Environment.init (640, 480) (36, 18) 1 opsA pA rB fuel).isSome = true := by
  rintro ⟨fuel, hf⟩
  rw [init_unsat_none fuel] at hf
  exact Bool.noConfusion hf

/-- C8 amended: the constructor rejection loop is unbounded; when the
clearance constraint is unsatisfiable the construction never terminates
(the fuel-indexed model returns nothing for every fuel bound), with no
explicit failure condition. -/
theorem C8_unbounded_rejection_loop (fuel : ℕ) :
    Environment.init (640, 480) (36, 18) 1 opsA pA rB fuel = none :=
  init_unsat_none fuel

end TrailerEnv
